import Mathlib

/-!
Shallow embedding of `dataframe_trade_stats.py` (class `DataframeTradeStatistics`).

Modelling conventions:
* Python floats are modelled as `Rat` (exact arithmetic; the source only adds,
  divides, compares and formats small profit ratios).
* A Python `dict` (insertion ordered, unique keys) is modelled as an
  association list whose assignment updates in place and appends new keys.
* The scalar values a candle row can hold are the inductive `CandleValue`.
* Python operations that may raise are `Except String`-valued; the
  `try/except` blocks of the source are modelled by explicit matches.
* External collaborators — the freqtrade `Trade` profit computation
  (`calc_profit_ratio` / `calc_profit`), the raw-candle-to-dict step
  (`candle.to_dict()` / `dict(candle)`), and the filesystem write — are passed
  in as `Except`-valued arguments so their failures can be injected.
* Wall-clock timestamps (`datetime.now()`) are passed in as strings.
-/

namespace TradeStats

/-- A scalar value appearing in a candle row (the values iterated over in
`_convert_candle_to_dict`): pandas timestamps, plain datetimes, not-a-number
sentinels (`pd.isna` is true), Python `None` (`pd.isna` is also true), numpy
wrapped numerics (`hasattr(value, 'item')` with a float/int dtype name), other
numpy scalars, and plain Python values. -/
inductive CandleValue where
  | timestamp (iso : String)
  | datetimeVal (iso : String)
  | nanVal
  | noneVal
  | npNumeric (x : Rat)
  | npOther (s : String)
  | pyFloat (x : Rat)
  | pyInt (n : Int)
  | pyStr (s : String)
  | pyBool (b : Bool)
deriving DecidableEq, Repr

/-- The per-value branch of `_convert_candle_to_dict` (source lines 115-125),
in source branch order: `pd.Timestamp` → isoformat string, `datetime` →
isoformat string, `pd.isna(value)` → `None`, numpy scalars (`hasattr 'item'`)
→ `float(value)` for numeric dtypes and `str(value)` otherwise, anything else
unchanged. -/
def convert_value : CandleValue → CandleValue
  | .timestamp iso => .pyStr iso
  | .datetimeVal iso => .pyStr iso
  | .nanVal => .noneVal
  | .noneVal => .noneVal
  | .npNumeric x => .pyFloat x
  | .npOther s => .pyStr s
  | .pyFloat x => .pyFloat x
  | .pyInt n => .pyInt n
  | .pyStr s => .pyStr s
  | .pyBool b => .pyBool b

/-- A value is JSON-representable as stored: no raw timestamp/datetime
objects, no not-a-number sentinel, no numpy wrapper. -/
def jsonSafe : CandleValue → Bool
  | .timestamp _ => false
  | .datetimeVal _ => false
  | .nanVal => false
  | .npNumeric _ => false
  | .npOther _ => false
  | .noneVal => true
  | .pyFloat _ => true
  | .pyInt _ => true
  | .pyStr _ => true
  | .pyBool _ => true

/-- `_convert_candle_to_dict` applied to an already-extracted key/value list:
normalizes every value. -/
def convert_candle_to_dict (candle : List (String × CandleValue)) :
    List (String × CandleValue) :=
  candle.map (fun kv => (kv.1, convert_value kv.2))

/-- One record of `self.trade_data` (built at source lines 158-166, exit
fields added by `.update` at lines 203-209; they are `none` while absent from
the Python dict). -/
structure TradeRecord where
  entry_candle : List (String × CandleValue)
  entry_price : Rat
  entry_time : String
  pair : String
  enter_tag : Option String
  amount : Rat
  profit : Option Rat
  profit_abs : Option Rat
  exit_price : Option Rat
  exit_reason : Option String
  trade_duration_candles : Option Nat
deriving DecidableEq, Repr

/-- The fields of the freqtrade `Trade` object that the recorder reads.
`open_date_iso` stands for `trade.open_date_utc.isoformat()`. -/
structure Trade where
  enter_tag : Option String
  open_date_iso : String
  open_rate : Rat
  amount : Rat
  nr_of_successful_buys : Nat
deriving DecidableEq, Repr

/-- The mutable state of a `DataframeTradeStatistics` instance. -/
structure DTS where
  enabled : Bool
  auto_save_on_exit : Bool
  output_dir : String
  strategy_name : String
  trade_data : List (String × TradeRecord)
  current_export_file : Option String
deriving DecidableEq, Repr

/-- `_generate_trade_key` (source lines 82-96).  Note the Python truthiness
test `enter_tag if enter_tag else "no_tag"`: the empty string is falsy. -/
def generate_trade_key (enter_tag : Option String) (pair : String)
    (open_date_iso : String) : String :=
  let enter_tag_str := match enter_tag with
    | some t => if t = "" then "no_tag" else t
    | none => "no_tag"
  enter_tag_str ++ "_" ++ pair ++ "_" ++ open_date_iso

/-- Python dict lookup `td[k]` / `k in td`. -/
def lookupTD : List (String × TradeRecord) → String → Option TradeRecord
  | [], _ => none
  | kv :: rest, k => if kv.1 = k then some kv.2 else lookupTD rest k

/-- Python dict assignment `td[k] = v`: replaces in place, else appends. -/
def setTD : List (String × TradeRecord) → String → TradeRecord →
    List (String × TradeRecord)
  | [], k, v => [(k, v)]
  | kv :: rest, k, v => if kv.1 = k then (kv.1, v) :: rest else kv :: setTD rest k v

/-- The fresh record written by `store_entry_dataframe` (source lines
158-166): entry fields from the trade, `profit` explicitly `None`, the four
exit keys absent. -/
def mkEntryRecord (pair : String) (trade : Trade)
    (candle_dict : List (String × CandleValue)) : TradeRecord :=
  { entry_candle := candle_dict
    entry_price := trade.open_rate
    entry_time := trade.open_date_iso
    pair := pair
    enter_tag := trade.enter_tag
    amount := trade.amount
    profit := none
    profit_abs := none
    exit_price := none
    exit_reason := none
    trade_duration_candles := none }

/-- The `.update` performed by `store_exit_profit` (source lines 203-209). -/
def applyExitUpdate (r : TradeRecord) (profit_ratio profit_abs exit_rate : Rat)
    (exit_reason : String) (duration : Nat) : TradeRecord :=
  { r with
    profit := some profit_ratio
    profit_abs := some profit_abs
    exit_price := some exit_rate
    exit_reason := some exit_reason
    trade_duration_candles := some duration }

/-- `[t['profit'] for t in self.trade_data.values() if t.get('profit') is not None]`. -/
def profitsOf (td : List (String × TradeRecord)) : List Rat :=
  td.filterMap (fun kv => kv.2.profit)

/-- `sum(1 for p in profits if p > 0)`. -/
def countPos (ps : List Rat) : Nat :=
  ps.countP (fun p => decide (0 < p))

/-- Round a rational to the nearest integer, ties to even — the rounding of
Python's fixed-point string formatting. -/
def roundHalfEven (x : Rat) : Int :=
  let f := x.floor
  if x - (f : Rat) < 1/2 then f
  else if (1 : Rat)/2 < x - (f : Rat) then f + 1
  else if f % 2 = 0 then f else f + 1

/-- Two-digit zero padding for the fractional part. -/
def pad2 (n : Nat) : String :=
  if n < 10 then "0" ++ toString n else toString n

/-- Python `f-string` formatting with `:.2f`. -/
def formatFixed2 (x : Rat) : String :=
  let h := roundHalfEven (x * 100)
  let a := h.natAbs
  let sign := if h < 0 then "-" else ""
  sign ++ toString (a / 100) ++ "." ++ pad2 (a % 100)

/-- The win-rate string of the export metadata (source lines 258 and 311):
`f"{(trades_with_profit / len(profits) * 100):.2f}%"` when any profit is
recorded, else the literal `"0.00%"`. -/
def win_rate_str (td : List (String × TradeRecord)) : String :=
  let profits := profitsOf td
  if profits.isEmpty then "0.00%"
  else formatFixed2 ((countPos profits : Rat) / (profits.length : Rat) * 100) ++ "%"

/-- The `metadata` header of an export.  `time` stands for the
`last_update` (incremental) / `export_time` (final) key. -/
structure Metadata where
  time : String
  total_trades : Nat
  trades_with_profit : Nat
  win_rate : String
  mode : String
deriving DecidableEq, Repr

/-- The whole JSON payload: metadata header plus the `trades` mapping. -/
structure ExportData where
  metadata : Metadata
  trades : List (String × TradeRecord)
deriving DecidableEq, Repr

/-- The export payload built at source lines 253-262 (incremental) and
314-323 (final): shared shape, differing `mode` tag and timestamp key. -/
def mkExportData (td : List (String × TradeRecord)) (now mode : String) :
    ExportData :=
  { metadata :=
      { time := now
        total_trades := td.length
        trades_with_profit := countPos (profitsOf td)
        win_rate := win_rate_str td
        mode := mode }
    trades := td }

/-- `_save_incremental` (source lines 228-271).  Returns the new state and
the payload durably written (`none` when nothing was written).  The method
has its own `try/except` so it never raises; a failing write is logged and
swallowed, but the lazily-created export path has already been assigned. -/
def save_incremental (s : DTS) (now ts : String) (write : Except String Unit) :
    DTS × Option ExportData :=
  if !s.enabled || !s.auto_save_on_exit then (s, none)
  else
    let file := match s.current_export_file with
      | some f => f
      | none => s.output_dir ++ "/" ++ s.strategy_name ++ "_" ++ ts ++ ".json"
    let s1 := { s with current_export_file := some file }
    match write with
    | .ok _ => (s1, some (mkExportData s.trade_data now "incremental"))
    | .error _ => (s1, none)

/-- `store_entry_dataframe` (source lines 129-171).  The `candle` argument is
the result of `_convert_candle_to_dict`'s raw extraction step, which may
raise; the whole body sits in `try/except Exception`, so any failure is
logged and swallowed and the method returns normally. -/
def store_entry_dataframe (s : DTS) (pair : String) (trade : Trade)
    (candle : Except String (List (String × CandleValue))) : Except String DTS :=
  if !s.enabled then .ok s
  else
    match candle with
    | .error _ => .ok s
    | .ok raw =>
        let trade_key := generate_trade_key trade.enter_tag pair trade.open_date_iso
        let candle_dict := convert_candle_to_dict raw
        let record := mkEntryRecord pair trade candle_dict
        .ok { s with trade_data := setTD s.trade_data trade_key record }

/-- `store_exit_profit` (source lines 173-226).  `calc_ratio` / `calc_abs`
are the results of the external `trade.calc_profit_ratio(exit_rate)` /
`trade.calc_profit(exit_rate)` calls, which may raise; the body sits in
`try/except Exception` and never raises.  Returns the new state and the
payload written by the automatic incremental save, if any. -/
def store_exit_profit (s : DTS) (pair : String) (trade : Trade)
    (exit_rate : Rat) (exit_reason : String)
    (calc_ratio calc_abs : Except String Rat)
    (now ts : String) (write : Except String Unit) :
    Except String (DTS × Option ExportData) :=
  if !s.enabled then .ok (s, none)
  else
    match calc_ratio, calc_abs with
    | .ok profit_ratio, .ok profit_abs =>
        let trade_key := generate_trade_key trade.enter_tag pair trade.open_date_iso
        match lookupTD s.trade_data trade_key with
        | some r =>
            let r1 := applyExitUpdate r profit_ratio profit_abs exit_rate
              exit_reason trade.nr_of_successful_buys
            let s1 := { s with trade_data := setTD s.trade_data trade_key r1 }
            if s1.auto_save_on_exit then .ok (save_incremental s1 now ts write)
            else .ok (s1, none)
        | none => .ok (s, none)
    | .error _, _ => .ok (s, none)
    | _, .error _ => .ok (s, none)

/-- `export_to_json` (source lines 273-334).  Empty store: warning logged,
returns `""`, nothing written.  Otherwise builds the payload and writes it;
an `IOError` from the write is logged and re-raised.  Returns the state,
the returned path string, and the payload written (if any). -/
def export_to_json (s : DTS) (output_path : Option String) (now ts : String)
    (write : Except String Unit) :
    Except String (DTS × String × Option ExportData) :=
  if s.trade_data.isEmpty then .ok (s, "", none)
  else
    let path := match output_path with
      | some p => p
      | none => s.output_dir ++ "/" ++ s.strategy_name ++ "_" ++ ts ++ ".json"
    match write with
    | .ok _ => .ok (s, path, some (mkExportData s.trade_data now "final_export"))
    | .error e => .error e

/-- `clear` (source lines 397-405): empties the mapping AND resets the
lazily-created export path. -/
def clear (s : DTS) : DTS :=
  { s with trade_data := [], current_export_file := none }

/-- The dictionary returned by `get_statistics_summary`. -/
structure Summary where
  total_trades : Nat
  trades_with_exit_data : Nat
  trades_with_profit : Nat
  profitable_trades : Nat
  losing_trades : Nat
  breakeven_trades : Nat
  win_rate : String
  avg_profit : Rat
  total_profit : Rat
  min_profit : Rat
  max_profit : Rat
deriving DecidableEq, Repr

/-- The all-defaults dictionary returned for an empty store (source lines
357-369). -/
def zeroSummary : Summary :=
  { total_trades := 0
    trades_with_exit_data := 0
    trades_with_profit := 0
    profitable_trades := 0
    losing_trades := 0
    breakeven_trades := 0
    win_rate := "0.00%"
    avg_profit := 0
    total_profit := 0
    min_profit := 0
    max_profit := 0 }

/-- Python division, which raises `ZeroDivisionError` on a zero denominator. -/
def divE (x : Rat) (n : Nat) : Except String Rat :=
  if n = 0 then .error "ZeroDivisionError" else .ok (x / (n : Rat))

/-- Python `min(l)`, which raises `ValueError` on an empty list. -/
def minE : List Rat → Except String Rat
  | [] => .error "ValueError"
  | p :: ps => .ok (ps.foldl min p)

/-- Python `max(l)`, which raises `ValueError` on an empty list. -/
def maxE : List Rat → Except String Rat
  | [] => .error "ValueError"
  | p :: ps => .ok (ps.foldl max p)

/-- `total_profit / len(profits) if profits else 0.0` (source line 380). -/
def avgE (total : Rat) (profits : List Rat) : Except String Rat :=
  if profits.isEmpty then .ok 0 else divE total profits.length

/-- `f"{...:.2f}%" if profits else "0.00%"` (source line 381). -/
def winRateE (profitable : Nat) (profits : List Rat) : Except String String :=
  if profits.isEmpty then .ok "0.00%"
  else
    match divE (profitable : Rat) profits.length with
    | .ok r => .ok (formatFixed2 (r * 100) ++ "%")
    | .error e => .error e

/-- `float(min(profits)) if profits else 0.0` (source line 393). -/
def minProfitE (profits : List Rat) : Except String Rat :=
  if profits.isEmpty then .ok 0 else minE profits

/-- `float(max(profits)) if profits else 0.0` (source line 394). -/
def maxProfitE (profits : List Rat) : Except String Rat :=
  if profits.isEmpty then .ok 0 else maxE profits

/-- `get_statistics_summary` (source lines 336-395).  The guarded divisions
and extrema are kept as fallible operations so that freedom from
`ZeroDivisionError` is a theorem, not an artifact of total division. -/
def get_statistics_summary (s : DTS) : Except String Summary :=
  if s.trade_data.isEmpty then .ok zeroSummary
  else
    let profits := profitsOf s.trade_data
    let profitable := profits.countP (fun p => decide (0 < p))
    let losing := profits.countP (fun p => decide (p < 0))
    let breakeven := profits.countP (fun p => decide (p = 0))
    let total_profit := if profits.isEmpty then 0 else profits.foldl (· + ·) 0
    match avgE total_profit profits, winRateE profitable profits,
          minProfitE profits, maxProfitE profits with
    | .ok avg, .ok wr, .ok mn, .ok mx =>
        .ok { total_trades := s.trade_data.length
              trades_with_exit_data := profits.length
              trades_with_profit := profitable
              profitable_trades := profitable
              losing_trades := losing
              breakeven_trades := breakeven
              win_rate := wr
              avg_profit := avg
              total_profit := total_profit
              min_profit := mn
              max_profit := mx }
    | .error e, _, _, _ => .error e
    | _, .error e, _, _ => .error e
    | _, _, .error e, _ => .error e
    | _, _, _, .error e => .error e

/-- Whether an `Except`-valued computation returned normally. -/
def exceptOk {α : Type} : Except String α → Bool
  | .ok _ => true
  | .error _ => false

instance {α : Type} [DecidableEq α] : DecidableEq (Except String α) := fun x y =>
  match x, y with
  | .ok a, .ok b =>
      if h : a = b then .isTrue (by rw [h]) else .isFalse (by simp [h])
  | .error a, .error b =>
      if h : a = b then .isTrue (by rw [h]) else .isFalse (by simp [h])
  | .ok _, .error _ => .isFalse (by simp)
  | .error _, .ok _ => .isFalse (by simp)

/-! ### A concrete, deterministic serialization of the `trades` mapping

`json.dump(..., indent=2, default=str)` is a pure function of the `trades`
dictionary; any deterministic rendering witnesses byte-identity of exports,
so a straightforward one is used. -/

/-- Render one scalar value. -/
def serializeValue : CandleValue → String
  | .noneVal => "null"
  | .pyStr s => "\"" ++ s ++ "\""
  | .pyFloat x => toString x
  | .pyInt n => toString n
  | .pyBool b => if b then "true" else "false"
  | .nanVal => "NaN"
  | .timestamp iso => "Timestamp(" ++ iso ++ ")"
  | .datetimeVal iso => "datetime(" ++ iso ++ ")"
  | .npNumeric x => toString x
  | .npOther s => "\"" ++ s ++ "\""

/-- Render an optional field; absent keys render as the empty string. -/
def serializeOptField {α : Type} (key : String) (f : α → String) :
    Option α → String
  | none => ""
  | some a => ", \"" ++ key ++ "\": " ++ f a

/-- Render the entry-candle mapping. -/
def serializeCandle (cd : List (String × CandleValue)) : String :=
  "\x7b" ++
    String.intercalate ", "
      (cd.map (fun kv => "\"" ++ kv.1 ++ "\": " ++ serializeValue kv.2)) ++
  "\x7d"

/-- Render one trade record; exit keys appear only once written, as in the
Python dict. -/
def serializeRecord (r : TradeRecord) : String :=
  "\x7b\"entry_candle\": " ++ serializeCandle r.entry_candle ++
  ", \"entry_price\": " ++ toString r.entry_price ++
  ", \"entry_time\": \"" ++ r.entry_time ++ "\"" ++
  ", \"pair\": \"" ++ r.pair ++ "\"" ++
  ", \"enter_tag\": " ++
    (match r.enter_tag with
      | none => "null"
      | some t => "\"" ++ t ++ "\"") ++
  ", \"amount\": " ++ toString r.amount ++
  ", \"profit\": " ++
    (match r.profit with
      | none => "null"
      | some p => toString p) ++
  serializeOptField "profit_abs" toString r.profit_abs ++
  serializeOptField "exit_price" toString r.exit_price ++
  serializeOptField "exit_reason" (fun t => "\"" ++ t ++ "\"") r.exit_reason ++
  serializeOptField "trade_duration_candles" toString r.trade_duration_candles ++
  "\x7d"

/-- Render the whole `trades` object. -/
def serializeTrades (td : List (String × TradeRecord)) : String :=
  "\x7b" ++
    String.intercalate ", "
      (td.map (fun kv => "\"" ++ kv.1 ++ "\": " ++ serializeRecord kv.2)) ++
  "\x7d"

/-! ### Spec-side definitions

These follow the wording of the specification, to be compared with the
code-side definitions above. -/

/-- Modelled from the spec: the number of records "with a recorded (non-null)
profit". -/
def nonNullProfitCount (td : List (String × TradeRecord)) : Nat :=
  (td.filter (fun kv => kv.2.profit.isSome)).length

/-- Modelled from the spec: the number of records whose recorded profit is
strictly positive ("win count (profit > 0)"). -/
def posProfitCount (td : List (String × TradeRecord)) : Nat :=
  (td.filter (fun kv =>
    match kv.2.profit with
    | some p => decide (0 < p)
    | none => false)).length

/-- Modelled from the spec: "win rate as a percentage string rounded to 2
decimals", wins over exited trades, with the zero default when no record has
a profit. -/
def winRateSpec (td : List (String × TradeRecord)) : String :=
  if nonNullProfitCount td = 0 then "0.00%"
  else formatFixed2 ((100 * (posProfitCount td : Rat)) / (nonNullProfitCount td : Rat)) ++ "%"

/-! ### Concrete stores used by counterexamples and witnesses -/

/-- A record as written by a first entry: no exit data yet. -/
def sampleRecord : TradeRecord :=
  { entry_candle := [("close", .pyFloat 100), ("rsi", .pyFloat 25)]
    entry_price := 100
    entry_time := "2024-01-01T00:00:00+00:00"
    pair := "BTC/USDT"
    enter_tag := some "breakout"
    amount := 1
    profit := none
    profit_abs := none
    exit_price := none
    exit_reason := none
    trade_duration_candles := none }

/-- `sampleRecord` after a losing exit. -/
def sampleLossRecord : TradeRecord :=
  { sampleRecord with
    profit := some (-2)
    profit_abs := some (-10)
    exit_price := some 90
    exit_reason := some "stoploss"
    trade_duration_candles := some 3 }

/-- A sample trade matching `sampleRecord`. -/
def sampleTrade : Trade :=
  { enter_tag := some "breakout"
    open_date_iso := "2024-01-01T00:00:00+00:00"
    open_rate := 100
    amount := 1
    nr_of_successful_buys := 3 }

/-- An enabled store holding one record with an export path already created. -/
def storeWithFile : DTS :=
  { enabled := true
    auto_save_on_exit := true
    output_dir := "user_data/trade_statistics"
    strategy_name := "S"
    trade_data := [("breakout_BTC/USDT_2024-01-01T00:00:00+00:00", sampleRecord)]
    current_export_file := some "user_data/trade_statistics/S_1.json" }

/-- An enabled store with one record and no exit data recorded. -/
def storeNoExit : DTS :=
  { storeWithFile with current_export_file := none }

/-- An enabled store with one losing exited trade and one open trade. -/
def storeLoss : DTS :=
  { storeWithFile with
    trade_data := [("a", sampleLossRecord), ("b", sampleRecord)]
    current_export_file := none }

/-- A disabled store that nevertheless holds a record. -/
def storeDisabled : DTS :=
  { storeWithFile with enabled := false }

/-- An enabled empty store. -/
def storeEmpty : DTS :=
  { storeWithFile with trade_data := [], current_export_file := none }

/-- An enabled store whose single record already carries exit data, stored
under the key that `sampleTrade` on pair BTC/USDT derives. -/
def storeExited : DTS :=
  { storeWithFile with
    trade_data := [("breakout_BTC/USDT_2024-01-01T00:00:00+00:00", sampleLossRecord)]
    current_export_file := none }

/-! ### Helper lemmas -/

theorem lookupTD_setTD (td : List (String × TradeRecord)) (k : String)
    (v : TradeRecord) : lookupTD (setTD td k v) k = some v := by
  induction td with
  | nil => simp [setTD, lookupTD]
  | cons kv rest ih =>
      by_cases h : kv.1 = k <;> simp [setTD, lookupTD, h, ih]

/-- The state produced by a successful enabled entry. -/
def entryResult (s : DTS) (pair : String) (trade : Trade)
    (raw : List (String × CandleValue)) : DTS :=
  let k := generate_trade_key trade.enter_tag pair trade.open_date_iso
  let v := mkEntryRecord pair trade (convert_candle_to_dict raw)
  { s with trade_data := setTD s.trade_data k v }

theorem profitsOf_length (td : List (String × TradeRecord)) :
    (profitsOf td).length = nonNullProfitCount td := by
  induction td with
  | nil => rfl
  | cons kv rest ih =>
      unfold profitsOf nonNullProfitCount at *
      cases h : kv.2.profit <;> simp [List.filterMap_cons, List.filter_cons, h, ih]

theorem countPos_profitsOf (td : List (String × TradeRecord)) :
    countPos (profitsOf td) = posProfitCount td := by
  induction td with
  | nil => rfl
  | cons kv rest ih =>
      unfold countPos profitsOf posProfitCount at *
      cases h : kv.2.profit with
      | none => simp [List.filterMap_cons, List.filter_cons, h, ih]
      | some p =>
          by_cases hp : (0 : Rat) < p <;>
            simp [List.filterMap_cons, List.filter_cons, List.countP_cons, h, hp, ih]

theorem win_rate_str_eq (td : List (String × TradeRecord)) :
    win_rate_str td = winRateSpec td := by
  unfold win_rate_str winRateSpec
  cases hP : profitsOf td with
  | nil =>
      have h0 : nonNullProfitCount td = 0 := by rw [← profitsOf_length, hP]; rfl
      simp [h0]
  | cons p ps =>
      have h0 : nonNullProfitCount td = ps.length + 1 := by
        rw [← profitsOf_length, hP]; rfl
      have h1 : posProfitCount td = countPos (p :: ps) := by
        rw [← countPos_profitsOf, hP]
      simp only [List.isEmpty_cons, h0, Nat.succ_ne_zero, if_false, h1,
        List.length_cons]
      push_cast
      ring_nf

theorem summary_isOk (s : DTS) : exceptOk (get_statistics_summary s) = true := by
  by_cases hE : s.trade_data.isEmpty
  · simp [get_statistics_summary, hE, exceptOk]
  · cases hP : profitsOf s.trade_data with
    | nil =>
        simp [get_statistics_summary, hE, hP, avgE, winRateE, minProfitE,
          maxProfitE, exceptOk]
    | cons p ps =>
        simp [get_statistics_summary, hE, hP, avgE, winRateE, minProfitE,
          maxProfitE, divE, minE, maxE, exceptOk]

/-! ### Claims -/

/-- C1 (amended): `clear()` empties the record mapping and — contrary to the
original claim — also resets the lazily-created export path to `None`; the
configuration fields are untouched. -/
theorem clear_resets_export_handle (s : DTS) :
    (clear s).trade_data = [] ∧ (clear s).current_export_file = none ∧
    (clear s).enabled = s.enabled ∧
    (clear s).auto_save_on_exit = s.auto_save_on_exit ∧
    (clear s).output_dir = s.output_dir ∧
    (clear s).strategy_name = s.strategy_name := by
  simp [clear]

/-- C1 counterexample: a store that had an export path before `clear()` does
not have the same export path afterwards. -/
theorem clear_export_handle_cex :
    storeWithFile.current_export_file = some "user_data/trade_statistics/S_1.json" ∧
    (clear storeWithFile).current_export_file ≠ storeWithFile.current_export_file := by
  decide

/-- C2 (amended): `get_statistics_summary` never divides by zero (it returns
normally on every store state); on an empty store it returns the all-defaults
structure; on a store none of whose records has a non-null profit it returns
the all-defaults structure except that `total_trades` is the record count
(which is not 0 for a non-empty store). -/
theorem summary_defaults_no_div (s : DTS) :
    exceptOk (get_statistics_summary s) = true ∧
    (s.trade_data = [] → get_statistics_summary s = .ok zeroSummary) ∧
    (profitsOf s.trade_data = [] →
      get_statistics_summary s =
        .ok { zeroSummary with total_trades := s.trade_data.length }) := by
  refine ⟨summary_isOk s, ?_, ?_⟩
  · intro h
    simp [get_statistics_summary, h, zeroSummary]
  · intro hP
    cases hT : s.trade_data with
    | nil => simp [get_statistics_summary, hT, zeroSummary]
    | cons kv rest =>
        rw [hT] at hP
        simp [get_statistics_summary, hT, hP, avgE, winRateE, minProfitE,
          maxProfitE, zeroSummary, profitsOf_length]

/-- C2 witness: the empty store and a non-empty store with no recorded
profit. -/
theorem summary_defaults_witness :
    get_statistics_summary storeEmpty = .ok zeroSummary ∧
    get_statistics_summary storeNoExit =
      .ok { zeroSummary with total_trades := storeNoExit.trade_data.length } :=
  ⟨(summary_defaults_no_div storeEmpty).2.1 rfl,
   (summary_defaults_no_div storeNoExit).2.2 rfl⟩

/-- C2 counterexample: a non-empty store with no recorded profit is
summarized with `total_trades = 1`, not the fully-zeroed structure. -/
theorem summary_defaults_cex :
    (storeNoExit.trade_data.all (fun kv => kv.2.profit.isNone)) = true ∧
    get_statistics_summary storeNoExit =
      .ok { zeroSummary with total_trades := 1 } ∧
    ({ zeroSummary with total_trades := 1 } : Summary) ≠ zeroSummary := by
  refine ⟨rfl, by decide, by decide⟩

/-- C3 (amended): for every non-empty store, the export metadata (final and
incremental alike) carries the total record count, the count of records with
a strictly positive recorded profit — not the count of records with any
recorded profit — and the win rate as a percentage string rounded to two
decimals. -/
theorem export_metadata_fields (s : DTS) (p : Option String) (now ts m : String)
    (h : s.trade_data ≠ []) (he : s.enabled = true)
    (ha : s.auto_save_on_exit = true) :
    (∃ path, export_to_json s p now ts (.ok ()) =
        .ok (s, path, some (mkExportData s.trade_data now "final_export"))) ∧
    (save_incremental s now ts (.ok ())).2 =
      some (mkExportData s.trade_data now "incremental") ∧
    (mkExportData s.trade_data now m).metadata.total_trades =
      s.trade_data.length ∧
    (mkExportData s.trade_data now m).metadata.trades_with_profit =
      posProfitCount s.trade_data ∧
    (mkExportData s.trade_data now m).metadata.win_rate =
      winRateSpec s.trade_data := by
  have hne : s.trade_data.isEmpty = false := by
    cases htd : s.trade_data with
    | nil => exact absurd htd h
    | cons a l => rfl
  refine ⟨?_, ?_, rfl, countPos_profitsOf _, win_rate_str_eq _⟩
  · cases p with
    | none =>
        exact ⟨s.output_dir ++ "/" ++ s.strategy_name ++ "_" ++ ts ++ ".json",
          by simp [export_to_json, hne]⟩
    | some q => exact ⟨q, by simp [export_to_json, hne]⟩
  · simp [save_incremental, he, ha]

/-- C3 witness: the two-record store with one losing exit. -/
theorem export_metadata_witness :
    (∃ path, export_to_json storeLoss none "T" "TS" (.ok ()) =
        .ok (storeLoss, path,
          some (mkExportData storeLoss.trade_data "T" "final_export"))) ∧
    (save_incremental storeLoss "T" "TS" (.ok ())).2 =
      some (mkExportData storeLoss.trade_data "T" "incremental") ∧
    (mkExportData storeLoss.trade_data "T" "final_export").metadata.total_trades =
      storeLoss.trade_data.length ∧
    (mkExportData storeLoss.trade_data "T" "final_export").metadata.trades_with_profit =
      posProfitCount storeLoss.trade_data ∧
    (mkExportData storeLoss.trade_data "T" "final_export").metadata.win_rate =
      winRateSpec storeLoss.trade_data :=
  export_metadata_fields storeLoss none "T" "TS" "final_export" (by decide)
    rfl rfl

/-- C3 counterexample: with one losing exited trade and one open trade, the
metadata's `trades_with_profit` field is 0 and the total is 2, while the
number of records with a recorded (non-null) profit is 1 — the metadata does
not carry that count. -/
theorem export_metadata_cex :
    export_to_json storeLoss none "T" "TS" (.ok ()) =
      .ok (storeLoss, "user_data/trade_statistics/S_TS.json",
        some (mkExportData storeLoss.trade_data "T" "final_export")) ∧
    nonNullProfitCount storeLoss.trade_data = 1 ∧
    (mkExportData storeLoss.trade_data "T" "final_export").metadata.trades_with_profit = 0 ∧
    (mkExportData storeLoss.trade_data "T" "final_export").metadata.total_trades = 2 := by
  refine ⟨rfl, rfl, rfl, rfl⟩

/-- C4 (amended): with `enabled = false`, `store_entry_dataframe`,
`store_exit_profit` and `_save_incremental` are no-ops that check the flag
before any other work (the result is the unchanged state for every possible
input, even failing collaborators). -/
theorem disabled_recording_noop (s : DTS) (pair : String) (trade : Trade)
    (candle : Except String (List (String × CandleValue)))
    (exit_rate : Rat) (exit_reason : String) (cr ca : Except String Rat)
    (now ts : String) (w : Except String Unit) (h : s.enabled = false) :
    store_entry_dataframe s pair trade candle = .ok s ∧
    store_exit_profit s pair trade exit_rate exit_reason cr ca now ts w =
      .ok (s, none) ∧
    save_incremental s now ts w = (s, none) := by
  simp [store_entry_dataframe, store_exit_profit, save_incremental, h]

/-- C4 witness: the no-op behavior at a concrete disabled store. -/
theorem disabled_recording_witness :
    store_entry_dataframe storeDisabled "BTC/USDT" sampleTrade (.error "boom") =
      .ok storeDisabled ∧
    store_exit_profit storeDisabled "BTC/USDT" sampleTrade 110 "exit_signal"
      (.ok (1/10)) (.ok 10) "T" "TS" (.ok ()) = .ok (storeDisabled, none) ∧
    save_incremental storeDisabled "T" "TS" (.ok ()) = (storeDisabled, none) :=
  disabled_recording_noop storeDisabled "BTC/USDT" sampleTrade (.error "boom")
    110 "exit_signal" (.ok (1/10)) (.ok 10) "T" "TS" (.ok ()) rfl

/-- C4 counterexample: with `enabled = false` the store still clears its
data, still summarizes it, and still exports it to file — these three
operations never consult the flag. -/
theorem disabled_checks_cex :
    storeDisabled.enabled = false ∧
    (clear storeDisabled).trade_data ≠ storeDisabled.trade_data ∧
    get_statistics_summary storeDisabled =
      .ok { zeroSummary with total_trades := 1 } ∧
    export_to_json storeDisabled none "T" "TS" (.ok ()) =
      .ok (storeDisabled, "user_data/trade_statistics/S_TS.json",
        some (mkExportData storeDisabled.trade_data "T" "final_export")) := by
  refine ⟨rfl, by decide, by decide, rfl⟩

/-- C5: `store_entry_dataframe` and `store_exit_profit` return normally for
every store state and every input, including failing candle extraction,
failing profit computation and failing file writes: the `try/except` blocks
swallow every failure. -/
theorem record_ops_never_raise (s : DTS) (pair : String) (trade : Trade)
    (candle : Except String (List (String × CandleValue)))
    (exit_rate : Rat) (exit_reason : String) (cr ca : Except String Rat)
    (now ts : String) (w : Except String Unit) :
    exceptOk (store_entry_dataframe s pair trade candle) = true ∧
    exceptOk (store_exit_profit s pair trade exit_rate exit_reason cr ca now ts w) = true := by
  constructor
  · unfold store_entry_dataframe
    cases s.enabled <;> cases candle <;> simp [exceptOk]
  · cases hE : s.enabled <;> cases cr <;> cases ca <;>
      cases hL : lookupTD s.trade_data
        (generate_trade_key trade.enter_tag pair trade.open_date_iso) <;>
      cases hA : s.auto_save_on_exit <;>
      simp [store_exit_profit, exceptOk, hE, hL, hA]

/-- C6: an exit event for a key not present in the mapping is swallowed: the
call returns normally, nothing is written, and the state — in particular the
record mapping — is exactly unchanged. -/
theorem exit_unknown_key_noop (s : DTS) (pair : String) (trade : Trade)
    (exit_rate : Rat) (exit_reason : String) (cr ca : Except String Rat)
    (now ts : String) (w : Except String Unit) (he : s.enabled = true)
    (h : lookupTD s.trade_data
        (generate_trade_key trade.enter_tag pair trade.open_date_iso) = none) :
    store_exit_profit s pair trade exit_rate exit_reason cr ca now ts w =
      .ok (s, none) := by
  unfold store_exit_profit
  cases cr <;> cases ca <;> simp [he, h]

/-- C6 witness: a concrete exit on a pair that was never entered. -/
theorem exit_unknown_key_witness :
    store_exit_profit storeNoExit "ETH/USDT" sampleTrade 110 "exit_signal"
      (.ok (1/10)) (.ok 10) "T" "TS" (.ok ()) = .ok (storeNoExit, none) :=
  exit_unknown_key_noop storeNoExit "ETH/USDT" sampleTrade 110 "exit_signal"
    (.ok (1/10)) (.ok 10) "T" "TS" (.ok ()) rfl (by decide)

/-- C8: snapshot normalization maps every not-a-number sentinel to null and
every timestamp/datetime value to its ISO8601 string, and every value it
stores is JSON-representable (no NaN, no raw timestamp objects, no numpy
wrappers). -/
theorem normalize_json_safe :
    convert_value CandleValue.nanVal = CandleValue.noneVal ∧
    (∀ iso : String,
      convert_value (CandleValue.timestamp iso) = CandleValue.pyStr iso) ∧
    (∀ iso : String,
      convert_value (CandleValue.datetimeVal iso) = CandleValue.pyStr iso) ∧
    (∀ v : CandleValue, jsonSafe (convert_value v) = true) ∧
    (∀ candle : List (String × CandleValue),
      (convert_candle_to_dict candle).all (fun kv => jsonSafe kv.2) = true) := by
  refine ⟨rfl, fun _ => rfl, fun _ => rfl, ?_, ?_⟩
  · intro v; cases v <;> rfl
  · intro candle
    induction candle with
    | nil => rfl
    | cons kv rest ih =>
        simp only [convert_candle_to_dict, List.map_cons, List.all_cons,
          Bool.and_eq_true] at *
        exact ⟨by cases kv.2 <;> rfl, ih⟩

/-- C9: exporting an empty store performs no write, reports that nothing was
exported (the empty path), leaves the state unchanged and never raises,
whatever destination path was supplied and even if the filesystem would have
failed. -/
theorem export_empty_noop (s : DTS) (p : Option String) (now ts : String)
    (w : Except String Unit) (h : s.trade_data = []) :
    export_to_json s p now ts w = .ok (s, "", none) := by
  simp [export_to_json, h]

/-- C9 witness: the empty store with an explicit destination and a failing
filesystem. -/
theorem export_empty_witness :
    export_to_json storeEmpty (some "custom/path.json") "T" "TS" (.error "io") =
      .ok (storeEmpty, "", none) :=
  export_empty_noop storeEmpty (some "custom/path.json") "T" "TS" (.error "io") rfl

/-- C10: a second entry for an already-present key replaces the stored
record entirely with the fresh entry record — profit and all exit fields are
reset to absent — and the record at that key is identical to the one a first
entry on any other enabled store would produce. -/
theorem reentry_replaces_record (s : DTS) (pair : String) (trade : Trade)
    (raw : List (String × CandleValue)) (he : s.enabled = true) :
    ∃ s1, store_entry_dataframe s pair trade (.ok raw) = .ok s1 ∧
      lookupTD s1.trade_data
          (generate_trade_key trade.enter_tag pair trade.open_date_iso) =
        some (mkEntryRecord pair trade (convert_candle_to_dict raw)) ∧
      (mkEntryRecord pair trade (convert_candle_to_dict raw)).profit = none ∧
      (mkEntryRecord pair trade (convert_candle_to_dict raw)).profit_abs = none ∧
      (mkEntryRecord pair trade (convert_candle_to_dict raw)).exit_price = none ∧
      (mkEntryRecord pair trade (convert_candle_to_dict raw)).exit_reason = none ∧
      (mkEntryRecord pair trade (convert_candle_to_dict raw)).trade_duration_candles = none ∧
      ∀ s0 : DTS, s0.enabled = true →
        ∃ t1, store_entry_dataframe s0 pair trade (.ok raw) = .ok t1 ∧
          lookupTD t1.trade_data
              (generate_trade_key trade.enter_tag pair trade.open_date_iso) =
            lookupTD s1.trade_data
              (generate_trade_key trade.enter_tag pair trade.open_date_iso) := by
  refine ⟨entryResult s pair trade raw, ?_, ?_, rfl, rfl, rfl, rfl, rfl, ?_⟩
  · simp [store_entry_dataframe, he, entryResult]
  · exact lookupTD_setTD ..
  · intro s0 h0
    refine ⟨entryResult s0 pair trade raw, ?_, ?_⟩
    · simp [store_entry_dataframe, h0, entryResult]
    · simp [entryResult, lookupTD_setTD]

/-- C10 witness: re-entry on a store whose record already carries exit data. -/
theorem reentry_replaces_witness :
    ∃ s1, store_entry_dataframe storeExited "BTC/USDT" sampleTrade
        (.ok sampleRecord.entry_candle) = .ok s1 ∧
      lookupTD s1.trade_data
          (generate_trade_key sampleTrade.enter_tag "BTC/USDT" sampleTrade.open_date_iso) =
        some (mkEntryRecord "BTC/USDT" sampleTrade
          (convert_candle_to_dict sampleRecord.entry_candle)) ∧
      (mkEntryRecord "BTC/USDT" sampleTrade
        (convert_candle_to_dict sampleRecord.entry_candle)).profit = none ∧
      (mkEntryRecord "BTC/USDT" sampleTrade
        (convert_candle_to_dict sampleRecord.entry_candle)).profit_abs = none ∧
      (mkEntryRecord "BTC/USDT" sampleTrade
        (convert_candle_to_dict sampleRecord.entry_candle)).exit_price = none ∧
      (mkEntryRecord "BTC/USDT" sampleTrade
        (convert_candle_to_dict sampleRecord.entry_candle)).exit_reason = none ∧
      (mkEntryRecord "BTC/USDT" sampleTrade
        (convert_candle_to_dict sampleRecord.entry_candle)).trade_duration_candles = none ∧
      ∀ s0 : DTS, s0.enabled = true →
        ∃ t1, store_entry_dataframe s0 "BTC/USDT" sampleTrade
            (.ok sampleRecord.entry_candle) = .ok t1 ∧
          lookupTD t1.trade_data
              (generate_trade_key sampleTrade.enter_tag "BTC/USDT" sampleTrade.open_date_iso) =
            lookupTD s1.trade_data
              (generate_trade_key sampleTrade.enter_tag "BTC/USDT" sampleTrade.open_date_iso) :=
  reentry_replaces_record storeExited "BTC/USDT" sampleTrade
    sampleRecord.entry_candle rfl

/-- C7: exporting twice in a row (successful writes, arbitrary timestamps)
leaves the state — in particular the record mapping — unchanged both times,
and the two exported `trades` payloads are identical, including their
serialized byte form; only the metadata timestamp can differ. -/
theorem export_idempotent_pure (s : DTS) (p : Option String) (n1 t1 n2 t2 : String) :
    ∃ s1 path1 pay1 s2 path2 pay2,
      export_to_json s p n1 t1 (.ok ()) = .ok (s1, path1, pay1) ∧
      export_to_json s1 p n2 t2 (.ok ()) = .ok (s2, path2, pay2) ∧
      s1 = s ∧ s2 = s ∧
      pay1.map (fun d => d.trades) = pay2.map (fun d => d.trades) ∧
      pay1.map (fun d => serializeTrades d.trades) =
        pay2.map (fun d => serializeTrades d.trades) := by
  by_cases h : s.trade_data.isEmpty
  · exact ⟨s, "", none, s, "", none, by simp [export_to_json, h],
      by simp [export_to_json, h], rfl, rfl, rfl, rfl⟩
  · refine ⟨s,
      (match p with
        | some q => q
        | none => s.output_dir ++ "/" ++ s.strategy_name ++ "_" ++ t1 ++ ".json"),
      some (mkExportData s.trade_data n1 "final_export"), s,
      (match p with
        | some q => q
        | none => s.output_dir ++ "/" ++ s.strategy_name ++ "_" ++ t2 ++ ".json"),
      some (mkExportData s.trade_data n2 "final_export"),
      ?_, ?_, rfl, rfl, ?_, ?_⟩
    · simp [export_to_json, h]
    · simp [export_to_json, h]
    · simp [mkExportData]
    · simp [mkExportData]

end TradeStats
